import Mathlib

/-!
# Verification of the cluster-api driver (magnum/drivers/cluster_api/driver.py)

A shallow embedding of the cluster-lifecycle reconciliation driver:
the observed-status derivation, the status-reconciler state machine,
the resource fetch, the delete command, and the unsupported lifecycle
operations, together with theorems settling the specification claims.
-/

namespace ClusterApiDriver

/-- The observed-state vocabulary (`class ClusterStatus(enum.Enum)` in driver.py). -/
inductive ClusterStatus where
  | READY
  | PENDING
  | ERROR
  | NOT_FOUND
deriving DecidableEq, Repr

namespace fields

/-- Modelled from the spec: `magnum.objects.fields.ClusterStatus` is not under
src/; section 4.3 lists the nine persisted lifecycle states stored on a Cluster. -/
inductive ClusterStatus where
  | CREATE_IN_PROGRESS
  | CREATE_COMPLETE
  | CREATE_FAILED
  | UPDATE_IN_PROGRESS
  | UPDATE_COMPLETE
  | UPDATE_FAILED
  | DELETE_IN_PROGRESS
  | DELETE_COMPLETE
  | DELETE_FAILED
deriving DecidableEq, Repr

end fields

/-- The slice of the persisted Cluster object that `update_cluster_status`
reads and mutates: `status` and `status_reason` (driver.py lines 48-95). -/
structure Cluster where
  status : fields.ClusterStatus
  status_reason : String
deriving DecidableEq, Repr

/-- `Driver.update_cluster_status` (driver.py lines 48-95), with the observed
status (the result of `_get_cluster_status`) passed as a parameter.  Returns
the mutated cluster together with the number of `cluster.save()` calls made.
The two `if` statements inside each branch are sequential, as in the source. -/
def update_cluster_status (cluster : Cluster) (k8s_status : ClusterStatus) :
    Cluster × Nat :=
  let previous_state := cluster.status
  if previous_state = fields.ClusterStatus.CREATE_IN_PROGRESS then
    let s1 :=
      if k8s_status = ClusterStatus.READY then
        (⟨fields.ClusterStatus.CREATE_COMPLETE, "cluster is ready"⟩, 1)
      else (cluster, 0)
    if k8s_status = ClusterStatus.ERROR then
      (⟨fields.ClusterStatus.CREATE_FAILED, "cluster is in error state"⟩, s1.2 + 1)
    else s1
  else if previous_state = fields.ClusterStatus.UPDATE_IN_PROGRESS then
    let s1 :=
      if k8s_status = ClusterStatus.READY then
        (⟨fields.ClusterStatus.UPDATE_COMPLETE, "cluster is ready"⟩, 1)
      else (cluster, 0)
    if k8s_status = ClusterStatus.ERROR then
      (⟨fields.ClusterStatus.UPDATE_FAILED, "cluster is in error state"⟩, s1.2 + 1)
    else s1
  else if previous_state = fields.ClusterStatus.DELETE_IN_PROGRESS then
    let s1 :=
      if k8s_status = ClusterStatus.NOT_FOUND then
        (⟨fields.ClusterStatus.DELETE_COMPLETE, "cluster is not found"⟩, 1)
      else (cluster, 0)
    if k8s_status = ClusterStatus.ERROR then
      (⟨fields.ClusterStatus.CREATE_FAILED, "cluster is in error state"⟩, s1.2 + 1)
    else s1
  else
    (⟨fields.ClusterStatus.UPDATE_FAILED, "unexpected state!"⟩, 1)

/-- Python truthiness of an optional string: `None` and `""` are falsy.
Used for `if not phase` and `if last_handled_str` in `_get_cluster_status`. -/
def truthyStr : Option String → Bool
  | none => false
  | some s => s ≠ ""

/-- The slice of the fetched external resource (the JSON object returned by
`_get_resource`) read by `_get_cluster_status`.  `V` is the type of parsed
JSON values; a field holds `none` when the key is absent (Python `.get`
returns `None`, which is also the parse of JSON `null`). -/
structure K8sResource (V : Type) where
  phase : Option String
  last_handled_str : Option String
  spec : Option V
deriving DecidableEq, Repr

/-- driver.py lines 110-115: `last_handled_spec` is `None` unless the
last-handled-configuration value is a truthy string, in which case it is
`json.loads` of that string (`loads` models `json.loads`). -/
def lastHandledSpec {V : Type} (loads : String → V) (r : K8sResource V) :
    Option V :=
  if truthyStr r.last_handled_str then r.last_handled_str.map loads else none

/-- `Driver._get_cluster_status` (driver.py lines 97-128), with the fetched
resource passed as a parameter (`none` models a falsy `_get_resource` result). -/
def get_cluster_status {V : Type} [DecidableEq V] (loads : String → V)
    (resource : Option (K8sResource V)) : ClusterStatus :=
  match resource with
  | none => ClusterStatus.NOT_FOUND
  | some r =>
    if ¬ truthyStr r.phase then ClusterStatus.PENDING
    else if lastHandledSpec loads r ≠ r.spec then ClusterStatus.PENDING
    else if r.phase = some "Ready" then ClusterStatus.READY
    else if r.phase = some "Failed" ∨ r.phase = some "Unhealthy" then
      ClusterStatus.ERROR
    else ClusterStatus.PENDING

/-- The outcome of one external process invocation, as observed by
`utils.execute`: the exit code and the captured output streams. -/
structure ExecResult where
  exit_code : Nat
  stdout : String
  stderr : String
deriving DecidableEq, Repr

/-- The structured execution error `utils.execute` raises on a non-zero
exit code (spec section 4.2: it carries the exit code and captured stderr). -/
inductive ExecError where
  | processExecutionError (exit_code : Nat) (stderr : String)
deriving DecidableEq, Repr

/-- `utils.execute`: returns `(stdout, stderr)` when the process exits 0,
raises `ProcessExecutionError` otherwise (spec section 4.2). -/
def execute (res : ExecResult) : Except ExecError (String × String) :=
  if res.exit_code = 0 then Except.ok (res.stdout, res.stderr)
  else Except.error (ExecError.processExecutionError res.exit_code res.stderr)

/-- `Driver._get_resource` (driver.py lines 130-135): runs `kubectl get`,
then returns `json.loads(stdout)`.  Any `execute` error propagates: the
source has no handler (only a FIXME comment about not-found errors). -/
def get_resource {V : Type} (loads : String → V) (res : ExecResult) :
    Except ExecError V :=
  match execute res with
  | Except.error e => Except.error e
  | Except.ok (stdout, _) => Except.ok (loads stdout)

/-- `Driver._delete_resources` (driver.py lines 143-147): the argument
vector handed to `utils.execute`, paired with the process input. -/
def delete_resources (resources_string : String) : List String × String :=
  (["kubectl", "delete", "--ignore-not-found=false", "-f", "-"],
   resources_string)

/-- Modelled from the spec: `kubectl delete` on an already-absent resource
fails (non-zero exit) unless invoked with `--ignore-not-found=true`
(section 6: removal must tolerate already-absent resources). -/
def kubectl_delete_exit_code (argv : List String) (present : Bool) : Nat :=
  if present ∨ argv.contains "--ignore-not-found=true" then 0 else 1

/-- The result of calling one of the unsupported lifecycle operations:
either an exception is raised (with its class and message), or the call
returns a value normally. -/
inductive PyOutcome where
  | raised (cls : String) (message : String)
  | returned (v : Option (String × String))
deriving DecidableEq, Repr

/-- `Driver.resize_cluster` (driver.py line 200): `raise Exception(...)`. -/
def resize_cluster : PyOutcome :=
  PyOutcome.raised "Exception" "don\x27t support removing nodes this way yet"

/-- `Driver.upgrade_cluster` (driver.py line 205): `raise NotImplementedError(...)`. -/
def upgrade_cluster : PyOutcome :=
  PyOutcome.raised "NotImplementedError" "don\x27t support upgrade yet"

/-- `Driver.create_nodegroup` (driver.py line 208): `raise Exception(...)`. -/
def create_nodegroup : PyOutcome :=
  PyOutcome.raised "Exception" "we don\x27t support node groups yet"

/-- `Driver.update_nodegroup` (driver.py line 211): `raise Exception(...)`. -/
def update_nodegroup : PyOutcome :=
  PyOutcome.raised "Exception" "we don\x27t support node groups yet"

/-- `Driver.delete_nodegroup` (driver.py line 214): `raise Exception(...)`. -/
def delete_nodegroup : PyOutcome :=
  PyOutcome.raised "Exception" "we don\x27t support node groups yet"

/-- `Driver.create_federation` (driver.py line 217): `return
NotImplementedError(...)` — the exception instance is returned, not raised. -/
def create_federation : PyOutcome :=
  PyOutcome.returned (some
    ("NotImplementedError", "Will not implement \x27create_federation\x27"))

/-- `Driver.update_federation` (driver.py line 220): `return
NotImplementedError(...)` — the exception instance is returned, not raised. -/
def update_federation : PyOutcome :=
  PyOutcome.returned (some
    ("NotImplementedError", "Will no implement \x27update_federation\x27"))

/-- `Driver.delete_federation` (driver.py line 223): `return
NotImplementedError(...)` — the exception instance is returned, not raised. -/
def delete_federation : PyOutcome :=
  PyOutcome.returned (some
    ("NotImplementedError", "Will not implement \x27delete_federation\x27"))

/-- A missing optional string is falsy. -/
theorem truthyStr_none : truthyStr none = false := rfl

/-- C1: for every cluster persisted in CREATE_IN_PROGRESS (resp.
UPDATE_IN_PROGRESS), observing READY sets CREATE_COMPLETE (resp.
UPDATE_COMPLETE) with reason "cluster is ready" and saves once; observing
ERROR sets CREATE_FAILED (resp. UPDATE_FAILED) with reason "cluster is in
error state" and saves once; observing PENDING or NOT_FOUND leaves status
and status_reason unchanged and does not save. -/
theorem C1_in_progress_transitions : ∀ (r : String),
    update_cluster_status ⟨fields.ClusterStatus.CREATE_IN_PROGRESS, r⟩
        ClusterStatus.READY
      = (⟨fields.ClusterStatus.CREATE_COMPLETE, "cluster is ready"⟩, 1) ∧
    update_cluster_status ⟨fields.ClusterStatus.CREATE_IN_PROGRESS, r⟩
        ClusterStatus.ERROR
      = (⟨fields.ClusterStatus.CREATE_FAILED, "cluster is in error state"⟩, 1) ∧
    update_cluster_status ⟨fields.ClusterStatus.CREATE_IN_PROGRESS, r⟩
        ClusterStatus.PENDING
      = (⟨fields.ClusterStatus.CREATE_IN_PROGRESS, r⟩, 0) ∧
    update_cluster_status ⟨fields.ClusterStatus.CREATE_IN_PROGRESS, r⟩
        ClusterStatus.NOT_FOUND
      = (⟨fields.ClusterStatus.CREATE_IN_PROGRESS, r⟩, 0) ∧
    update_cluster_status ⟨fields.ClusterStatus.UPDATE_IN_PROGRESS, r⟩
        ClusterStatus.READY
      = (⟨fields.ClusterStatus.UPDATE_COMPLETE, "cluster is ready"⟩, 1) ∧
    update_cluster_status ⟨fields.ClusterStatus.UPDATE_IN_PROGRESS, r⟩
        ClusterStatus.ERROR
      = (⟨fields.ClusterStatus.UPDATE_FAILED, "cluster is in error state"⟩, 1) ∧
    update_cluster_status ⟨fields.ClusterStatus.UPDATE_IN_PROGRESS, r⟩
        ClusterStatus.PENDING
      = (⟨fields.ClusterStatus.UPDATE_IN_PROGRESS, r⟩, 0) ∧
    update_cluster_status ⟨fields.ClusterStatus.UPDATE_IN_PROGRESS, r⟩
        ClusterStatus.NOT_FOUND
      = (⟨fields.ClusterStatus.UPDATE_IN_PROGRESS, r⟩, 0) :=
  fun _ => ⟨rfl, rfl, rfl, rfl, rfl, rfl, rfl, rfl⟩

/-- C2 (divergence): for a cluster persisted in DELETE_IN_PROGRESS the code
sets, on observed NOT_FOUND, status DELETE_COMPLETE with reason
"cluster is not found" (not "cluster deleted" as the claim and the repo's
own test expect), and on observed ERROR it sets status CREATE_FAILED (not
DELETE_FAILED); on PENDING it leaves the cluster unchanged without saving. -/
theorem C2_delete_branch_divergence :
    update_cluster_status ⟨fields.ClusterStatus.DELETE_IN_PROGRESS, "old"⟩
        ClusterStatus.NOT_FOUND
      = (⟨fields.ClusterStatus.DELETE_COMPLETE, "cluster is not found"⟩, 1) ∧
    update_cluster_status ⟨fields.ClusterStatus.DELETE_IN_PROGRESS, "old"⟩
        ClusterStatus.ERROR
      = (⟨fields.ClusterStatus.CREATE_FAILED, "cluster is in error state"⟩, 1) ∧
    update_cluster_status ⟨fields.ClusterStatus.DELETE_IN_PROGRESS, "old"⟩
        ClusterStatus.PENDING
      = (⟨fields.ClusterStatus.DELETE_IN_PROGRESS, "old"⟩, 0) :=
  ⟨rfl, rfl, rfl⟩

/-- C3: for every persisted status other than the three in-progress states,
one call with any observed status sets UPDATE_FAILED with reason
"unexpected state!" and calls save exactly once. -/
theorem C3_fallback_branch (r : String) (prev : fields.ClusterStatus)
    (k : ClusterStatus)
    (h1 : prev ≠ fields.ClusterStatus.CREATE_IN_PROGRESS)
    (h2 : prev ≠ fields.ClusterStatus.UPDATE_IN_PROGRESS)
    (h3 : prev ≠ fields.ClusterStatus.DELETE_IN_PROGRESS) :
    update_cluster_status ⟨prev, r⟩ k
      = (⟨fields.ClusterStatus.UPDATE_FAILED, "unexpected state!"⟩, 1) := by
  simp [update_cluster_status, h1, h2, h3]

/-- Witness for C3 at a concrete input. -/
theorem C3_fallback_branch_witness :
    update_cluster_status ⟨fields.ClusterStatus.CREATE_COMPLETE, "x"⟩
        ClusterStatus.READY
      = (⟨fields.ClusterStatus.UPDATE_FAILED, "unexpected state!"⟩, 1) :=
  C3_fallback_branch "x" fields.ClusterStatus.CREATE_COMPLETE
    ClusterStatus.READY (by decide) (by decide) (by decide)

/-- C4: the observed-state derivation maps an absent resource to NOT_FOUND;
a resource with no status.phase to PENDING; a resource whose
last-handled-configuration does not match its spec to PENDING; phase
"Ready" (annotation matching) to READY; phase "Failed" or "Unhealthy"
(annotation matching) to ERROR; and any other phase to PENDING. -/
theorem C4_observed_state_derivation {V : Type} [DecidableEq V]
    (loads : String → V) (r2 r3 r4 r5 r6 : K8sResource V)
    (h2 : r2.phase = none)
    (h3p : truthyStr r3.phase = true)
    (h3 : lastHandledSpec loads r3 ≠ r3.spec)
    (h4p : r4.phase = some "Ready")
    (h4 : lastHandledSpec loads r4 = r4.spec)
    (h5p : r5.phase = some "Failed" ∨ r5.phase = some "Unhealthy")
    (h5 : lastHandledSpec loads r5 = r5.spec)
    (h6p : truthyStr r6.phase = true)
    (h6r : r6.phase ≠ some "Ready")
    (h6f : r6.phase ≠ some "Failed")
    (h6u : r6.phase ≠ some "Unhealthy")
    (h6 : lastHandledSpec loads r6 = r6.spec) :
    get_cluster_status loads (none : Option (K8sResource V))
        = ClusterStatus.NOT_FOUND ∧
    get_cluster_status loads (some r2) = ClusterStatus.PENDING ∧
    get_cluster_status loads (some r3) = ClusterStatus.PENDING ∧
    get_cluster_status loads (some r4) = ClusterStatus.READY ∧
    get_cluster_status loads (some r5) = ClusterStatus.ERROR ∧
    get_cluster_status loads (some r6) = ClusterStatus.PENDING := by
  refine ⟨rfl, ?_, ?_, ?_, ?_, ?_⟩
  · simp [get_cluster_status, h2, truthyStr]
  · simp [get_cluster_status, h3p, h3]
  · simp [get_cluster_status, h4p, h4, truthyStr]
  · rcases h5p with h5p | h5p <;> simp [get_cluster_status, h5p, h5, truthyStr]
  · simp [get_cluster_status, h6p, h6r, h6f, h6u, h6]

/-- Witness for C4 at concrete resources. -/
theorem C4_observed_state_derivation_witness :
    get_cluster_status (fun _ => (0 : Nat)) (none : Option (K8sResource Nat))
        = ClusterStatus.NOT_FOUND ∧
    get_cluster_status (fun _ => (0 : Nat)) (some ⟨none, none, none⟩)
        = ClusterStatus.PENDING ∧
    get_cluster_status (fun _ => (0 : Nat)) (some ⟨some "Ready", none, some 1⟩)
        = ClusterStatus.PENDING ∧
    get_cluster_status (fun _ => (0 : Nat)) (some ⟨some "Ready", none, none⟩)
        = ClusterStatus.READY ∧
    get_cluster_status (fun _ => (0 : Nat)) (some ⟨some "Failed", none, none⟩)
        = ClusterStatus.ERROR ∧
    get_cluster_status (fun _ => (0 : Nat))
        (some ⟨some "Reconciling", none, none⟩) = ClusterStatus.PENDING :=
  C4_observed_state_derivation (fun _ => 0)
    ⟨none, none, none⟩ ⟨some "Ready", none, some 1⟩ ⟨some "Ready", none, none⟩
    ⟨some "Failed", none, none⟩ ⟨some "Reconciling", none, none⟩
    rfl rfl (by decide) rfl rfl (Or.inl rfl) rfl rfl
    (by decide) (by decide) (by decide) rfl

/-- C5 (divergence): when the inspection command exits 1 with a "not found"
marker in stderr, `_get_resource` propagates the execution error as an
exception instead of returning an absence signal: the source has no
handler, only a FIXME comment. -/
theorem C5_get_resource_not_found_raises :
    get_resource (fun s => s)
        ⟨1, "",
         "Error from server: clusters.cluster.azimuth.stackhpc.com not found"⟩
      = Except.error (ExecError.processExecutionError 1
         "Error from server: clusters.cluster.azimuth.stackhpc.com not found")
    := rfl

/-- C6 (divergence): `_delete_resources` issues the removal with
`--ignore-not-found=false`, so deleting an already-absent resource exits
non-zero and raises, contrary to the claim (and to the repo's own test,
which expects `--ignore-not-found=true`). -/
theorem C6_delete_not_idempotent :
    ((delete_resources "asdf").1.contains "--ignore-not-found=false" = true) ∧
    ((delete_resources "asdf").1.contains "--ignore-not-found=true" = false) ∧
    kubectl_delete_exit_code (delete_resources "asdf").1 false = 1 := by
  decide

/-- C7 (divergence): the three federation operations use `return
NotImplementedError(...)` rather than `raise`, so each returns the
exception instance normally instead of raising, contrary to the claim
that every unsupported operation raises; the other five do raise. -/
theorem C7_federation_returns_normally :
    create_federation = PyOutcome.returned (some
      ("NotImplementedError", "Will not implement \x27create_federation\x27")) ∧
    update_federation = PyOutcome.returned (some
      ("NotImplementedError", "Will no implement \x27update_federation\x27")) ∧
    delete_federation = PyOutcome.returned (some
      ("NotImplementedError", "Will not implement \x27delete_federation\x27")) ∧
    resize_cluster
      = PyOutcome.raised "Exception" "don\x27t support removing nodes this way yet" ∧
    upgrade_cluster
      = PyOutcome.raised "NotImplementedError" "don\x27t support upgrade yet" ∧
    create_nodegroup
      = PyOutcome.raised "Exception" "we don\x27t support node groups yet" ∧
    update_nodegroup
      = PyOutcome.raised "Exception" "we don\x27t support node groups yet" ∧
    delete_nodegroup
      = PyOutcome.raised "Exception" "we don\x27t support node groups yet" :=
  ⟨rfl, rfl, rfl, rfl, rfl, rfl, rfl, rfl⟩

/-- C8 (counterexample): a cluster already in UPDATE_FAILED with reason
"unexpected state!" is returned entirely unchanged by the fallback branch,
yet save is still called once — refuting "save if and only if the
persisted state changes". -/
theorem C8_counterexample :
    update_cluster_status
        ⟨fields.ClusterStatus.UPDATE_FAILED, "unexpected state!"⟩
        ClusterStatus.READY
      = (⟨fields.ClusterStatus.UPDATE_FAILED, "unexpected state!"⟩, 1) :=
  rfl

/-- C8 (amended): in the three in-progress states, save is called exactly
once when the status changes and not at all when it does not; for every
other persisted state the fallback branch calls save exactly once, even
when the status (already UPDATE_FAILED) is unchanged. -/
theorem C8_save_discipline : ∀ (r : String) (prev : fields.ClusterStatus)
    (k : ClusterStatus),
    (update_cluster_status ⟨prev, r⟩ k).2 =
      (if prev = fields.ClusterStatus.CREATE_IN_PROGRESS ∨
          prev = fields.ClusterStatus.UPDATE_IN_PROGRESS ∨
          prev = fields.ClusterStatus.DELETE_IN_PROGRESS then
        (if (update_cluster_status ⟨prev, r⟩ k).1.status = prev then 0 else 1)
      else 1) := by
  intro r prev k
  cases prev <;> cases k <;> simp [update_cluster_status]

/-- C9: update_cluster_status never assigns an in-progress state: after
the call the status is either exactly its previous value or one of the
six terminal complete/failed states. -/
theorem C9_never_assigns_in_progress : ∀ (r : String)
    (prev : fields.ClusterStatus) (k : ClusterStatus),
    (update_cluster_status ⟨prev, r⟩ k).1.status = prev ∨
    (update_cluster_status ⟨prev, r⟩ k).1.status ∈
      [fields.ClusterStatus.CREATE_COMPLETE, fields.ClusterStatus.CREATE_FAILED,
       fields.ClusterStatus.UPDATE_COMPLETE, fields.ClusterStatus.UPDATE_FAILED,
       fields.ClusterStatus.DELETE_COMPLETE, fields.ClusterStatus.DELETE_FAILED]
    := by
  intro r prev k
  cases prev <;> cases k <;> simp [update_cluster_status]

/-- C10: a fetched resource with a truthy phase and no
last-handled-configuration value is classified PENDING whenever it has a
spec, regardless of phase (even "Ready"); only with no spec does
classification fall through to the phase comparison. -/
theorem C10_missing_last_handled {V : Type} [DecidableEq V]
    (loads : String → V) (r r' : K8sResource V) (v : V)
    (hp : truthyStr r.phase = true)
    (ha : r.last_handled_str = none)
    (hs : r.spec = some v)
    (hp' : truthyStr r'.phase = true)
    (ha' : r'.last_handled_str = none)
    (hs' : r'.spec = none) :
    get_cluster_status loads (some r) = ClusterStatus.PENDING ∧
    get_cluster_status loads (some r') =
      (if r'.phase = some "Ready" then ClusterStatus.READY
       else if r'.phase = some "Failed" ∨ r'.phase = some "Unhealthy" then
         ClusterStatus.ERROR
       else ClusterStatus.PENDING) := by
  constructor
  · simp [get_cluster_status, hp, lastHandledSpec, ha, truthyStr_none, hs]
  · simp [get_cluster_status, hp', lastHandledSpec, ha', truthyStr_none, hs']

/-- Witness for C10 at concrete resources (phase "Ready" in both). -/
theorem C10_missing_last_handled_witness :
    get_cluster_status (fun _ => (0 : Nat))
        (some ⟨some "Ready", none, some 0⟩) = ClusterStatus.PENDING ∧
    get_cluster_status (fun _ => (0 : Nat))
        (some (⟨some "Ready", none, none⟩ : K8sResource Nat)) =
      (if (some "Ready" : Option String) = some "Ready" then ClusterStatus.READY
       else if (some "Ready" : Option String) = some "Failed" ∨
               (some "Ready" : Option String) = some "Unhealthy" then
         ClusterStatus.ERROR
       else ClusterStatus.PENDING) :=
  C10_missing_last_handled (fun _ => 0)
    ⟨some "Ready", none, some 0⟩ ⟨some "Ready", none, none⟩ 0
    (by decide) rfl rfl (by decide) rfl rfl

end ClusterApiDriver
